import Mathlib

/-!
Verification development for the Pixey Dust BLE sensor-monitor application
(src/App.tsx). The single React component holds eight state variables and a
handful of event handlers wired to a BLE client library. Each handler is
embedded below as a pure function on an explicit application state; the
asynchronous outcomes supplied by the platform (permission grants, thrown
errors, scan results, notification payloads) become explicit parameters.
A small labelled transition system over a world (application state plus the
environment facts the platform tracks: open links, the active scan, pending
delayed callbacks) captures the reachable-state claims.
-/

namespace PixeyDust

/-- Adapter power states reported by the BLE library (react-native-ble-plx
`State`). -/
inductive BLEState where
  | Unknown
  | Resetting
  | Unsupported
  | Unauthorized
  | PoweredOff
  | PoweredOn
deriving DecidableEq, Repr

/-- A discovered peripheral: stable identifier plus an optional advertised
name (`null` in the library becomes `none`). -/
structure Device where
  id : String
  name : Option String
deriving DecidableEq, Repr

/-- JSON values as produced by `JSON.parse`; numbers are modelled as
integers, which covers every payload the claims mention. -/
inductive Json where
  | null
  | bool (b : Bool)
  | num (n : Int)
  | str (s : String)
  | arr (elems : List Json)
  | obj (fields : List (String × Json))

/-- Property access `j.k` on a parsed value: defined on objects, `none`
(JavaScript `undefined`) everywhere else. -/
def Json.lookup : Json → String → Option Json
  | .obj fields, k => (fields.find? (fun p => p.1 == k)).map (fun p => p.2)
  | _, _ => none

/-- JavaScript truthiness of a JSON value: `null`, `false`, the number `0`
and the empty string are falsy; every other value is truthy. -/
def Json.truthy : Json → Bool
  | .null => false
  | .bool b => b
  | .num n => n != 0
  | .str s => s != ""
  | .arr _ => true
  | .obj _ => true

/-- Truthiness of an optional field value; an absent field (JavaScript
`undefined`) is falsy. -/
def truthyOpt : Option Json → Bool
  | none => false
  | some j => j.truthy

/-- The eight `useState` variables of the component, in source order. The
sensor snapshot stores the whole parsed object, exactly as
`setSensorData(data)` does. -/
structure AppState where
  sensorData : Json
  connected : Bool
  statusMsg : String
  bluetoothState : BLEState
  scanning : Bool
  devices : List Device
  selectedDevice : Option Device
  permissionsGranted : Bool

/-- Initial values of the `useState` calls. -/
def initialState : AppState :=
  { sensorData := .obj []
    connected := false
    statusMsg := "Bluetooth not ready"
    bluetoothState := .Unknown
    scanning := false
    devices := []
    selectedDevice := none
    permissionsGranted := false }

/-- The `bleManager.onStateChange` callback: records the new adapter state
and branches on it; only the `PoweredOff` branch touches the connection
flag and the selected device. -/
def onStateChange (st : AppState) (s : BLEState) : AppState :=
  let st1 := { st with bluetoothState := s }
  match s with
  | .PoweredOn => { st1 with statusMsg := "Bluetooth is ready - Scan for devices" }
  | .PoweredOff =>
      { st1 with statusMsg := "Bluetooth is turned off"
                 connected := false
                 selectedDevice := none }
  | .Unauthorized => { st1 with statusMsg := "Bluetooth permission denied" }
  | .Unsupported => { st1 with statusMsg := "Bluetooth not supported on this device" }
  | _ => st1

/-- The permission list built by `requestPermissions`: fine and coarse
location always, plus the two Bluetooth permissions on platform version 31
and newer. -/
def requestedPermissions (ver : Nat) : List String :=
  ["ACCESS_FINE_LOCATION", "ACCESS_COARSE_LOCATION"] ++
    (if 31 ≤ ver then ["BLUETOOTH_SCAN", "BLUETOOTH_CONNECT"] else [])

/-- `requestPermissions`: on Android it requests the permission list en
masse and returns whether every returned status is `granted`; a thrown
request error (`thr`) yields `false`; on other platforms it returns `true`.
`grant` models the status map returned by `requestMultiple`. -/
def requestPermissions (os : String) (ver : Nat) (thr : Bool)
    (grant : String → String) : Bool :=
  if os = "android" then
    if thr then false
    else ((requestedPermissions ver).map grant).all (fun s => s == "granted")
  else true

/-- `checkPermissions`: on Android it checks fine location, coarse
location, and on version 31+ also the two Bluetooth permissions, returning
their conjunction; a thrown check error yields `false`; on other platforms
it returns `true`. `chk` models `PermissionsAndroid.check`. -/
def checkPermissions (os : String) (ver : Nat) (thr : Bool)
    (chk : String → Bool) : Bool :=
  if os = "android" then
    if thr then false
    else
      chk "ACCESS_FINE_LOCATION" && chk "ACCESS_COARSE_LOCATION" &&
        (if 31 ≤ ver then chk "BLUETOOTH_SCAN" && chk "BLUETOOTH_CONNECT" else true)
  else true

/-- `startBLEScan` up to and including the `startDeviceScan` call. `check`
and `req` are the outcomes of `checkPermissions` and `requestPermissions`;
`thr` says whether `startDeviceScan` threw synchronously, with message
`emsg`. Returns the new state and whether a scan session actually started
(and hence the 10-second timeout was scheduled). -/
def startBLEScan (st : AppState) (check req thr : Bool) (emsg : String) :
    AppState × Bool :=
  if st.bluetoothState ≠ .PoweredOn then (st, false)
  else if !check && !req then
    ({ st with statusMsg := "Bluetooth permissions required" }, false)
  else
    let st1 := { st with scanning := true
                         statusMsg := "Scanning for BLE devices..."
                         devices := [] }
    if thr then ({ st1 with scanning := false, statusMsg := "Scan failed: " ++ emsg }, false)
    else (st1, true)

/-- JavaScript truthiness of `device.name`: present and non-empty. -/
def hasName (d : Device) : Bool :=
  match d.name with
  | some s => s != ""
  | none => false

/-- The `startDeviceScan` result callback: a scan error surfaces a status
message and clears the scanning flag; a named device is appended unless its
identifier is already listed; everything else is ignored. -/
def scanCallback (st : AppState) (err : Option String) (dev : Option Device) :
    AppState :=
  match err with
  | some m => { st with statusMsg := "Scan error: " ++ m, scanning := false }
  | none =>
    match dev with
    | some d =>
      if hasName d then
        if st.devices.any (fun p => p.id == d.id) then st
        else { st with devices := st.devices ++ [d] }
      else st
    | none => st

/-- Where a `connectToDevice` run ends. The link to the peripheral is
established by `device.connect()`, before service discovery and before the
component records the device, so a later throw leaves the link open. -/
inductive ConnOutcome where
  | success
  | failEarly
  | failAfterLink
  | failAfterSelect
deriving DecidableEq, Repr

/-- JavaScript string coercion of `device.name` for status messages. -/
def jsName (d : Device) : String :=
  match d.name with
  | some s => s
  | none => "null"

/-- `connectToDevice`, collapsed to its observable end state for each
outcome. On success the device is recorded, the connection flag set and
the final status message written; every failure lands in the catch block,
which surfaces a connection-failed message and clears the connection flag.
`failAfterSelect` throws after `setSelectedDevice`/`setConnected` ran, so
the selected device stays recorded. -/
def connectToDevice (st : AppState) (d : Device) (out : ConnOutcome)
    (emsg : String) : AppState :=
  match out with
  | .success =>
      { st with selectedDevice := some d
                connected := true
                statusMsg := "Connected and monitoring " ++ jsName d }
  | .failEarly =>
      { st with statusMsg := "Connection failed: " ++ emsg, connected := false }
  | .failAfterLink =>
      { st with statusMsg := "Connection failed: " ++ emsg, connected := false }
  | .failAfterSelect =>
      { st with selectedDevice := some d
                statusMsg := "Connection failed: " ++ emsg
                connected := false }

/-- The characteristic `monitor` callback. `err` is a notification error
(logged and dropped); `hasValue` is the truthiness of
`characteristic && characteristic.value`; `parsed` is the result of
`JSON.parse` on the value (`none` when the parse threw, which is only
logged). The readings are replaced by the whole parsed object exactly when
`data.temperature || data.humidity` is truthy. -/
def monitorCallback (st : AppState) (err hasValue : Bool)
    (parsed : Option Json) : AppState :=
  if err then st
  else if !hasValue then st
  else
    match parsed with
    | none => st
    | some data =>
      if truthyOpt (data.lookup "temperature") || truthyOpt (data.lookup "humidity") then
        { st with sensorData := data, statusMsg := "Receiving sensor data..." }
      else st

/-- `disconnectDevice`: a no-op without a selected device; when
`cancelConnection` resolves (`ok`) the device, flag and readings are
cleared and a message written; when it throws the error is only logged and
the state is untouched. -/
def disconnectDevice (st : AppState) (ok : Bool) : AppState :=
  match st.selectedDevice with
  | none => st
  | some _ =>
    if ok then
      { st with selectedDevice := none
                connected := false
                sensorData := .obj []
                statusMsg := "Disconnected from device" }
    else st

/-- `readSensorData`: returns immediately without a selected device;
otherwise it only writes status messages — the characteristic read itself
is commented out in the source, so the non-throwing path ends on the
success message having read nothing. `thr` says whether `services()`
threw. -/
def readSensorData (st : AppState) (thr : Bool) : AppState :=
  match st.selectedDevice with
  | none => st
  | some _ =>
    if thr then { st with statusMsg := "Failed to read data" }
    else { st with statusMsg := "Data read successfully" }

/-- A world: the component state plus the environment facts the platform
tracks — identifiers of peripherals with an open link, whether a scan
session is running, and the delays (in milliseconds) of pending
`setTimeout` callbacks. -/
structure World where
  st : AppState
  connections : List String
  scanActive : Bool
  timers : List Nat

/-- The world at mount: fresh component state, no links, no scan, no
pending callbacks. -/
def initialWorld : World :=
  { st := initialState, connections := [], scanActive := false, timers := [] }

/-- The events that drive the component, each carrying the outcome the
platform chose for it. -/
inductive Ev where
  | stateChange (s : BLEState)
  | scanStart (check req thr : Bool) (emsg : String)
  | scanResult (err : Option String) (dev : Option Device)
  | scanTimeout
  | connect (d : Device) (out : ConnOutcome) (emsg : String)
  | disconnect (ok dropped : Bool)
  | readData (thr : Bool)
  | notify (err hasValue : Bool) (parsed : Option Json)

/-- One atomic event step. The application calls `stopDeviceScan` only
inside the 10-second timeout, so only `scanTimeout` ends the scan session
and consumes a timer; the source never calls `clearTimeout`, so no event
removes a pending timer otherwise. `connect` opens a link for every
outcome except a throw inside `device.connect()` itself, and never closes
one. When the adapter powers off the platform drops all links. The
timeout's completion message reads the device count (the source closure
captures a stale render value; the message text is not load-bearing
here). -/
def applyEv : Ev → World → World
  | .stateChange s, w =>
    { w with st := onStateChange w.st s
             connections := if s = .PoweredOff then [] else w.connections }
  | .scanStart c r t m, w =>
    let res := startBLEScan w.st c r t m
    { w with st := res.1
             scanActive := w.scanActive || res.2
             timers := if res.2 then w.timers ++ [10000] else w.timers }
  | .scanResult e d, w => { w with st := scanCallback w.st e d }
  | .scanTimeout, w =>
    { w with st := { w.st with
                       scanning := false
                       statusMsg := "Scan completed. Found " ++
                         toString w.st.devices.length ++ " devices" }
             scanActive := false
             timers := w.timers.tail }
  | .connect d out m, w =>
    { w with st := connectToDevice w.st d out m
             connections :=
               if out = .failEarly then w.connections
               else if w.connections.contains d.id then w.connections
               else w.connections ++ [d.id] }
  | .disconnect ok dropped, w =>
    match w.st.selectedDevice with
    | none => w
    | some d =>
      { w with st := disconnectDevice w.st ok
               connections :=
                 if ok || dropped then w.connections.filter (fun c => c != d.id)
                 else w.connections }
  | .readData t, w => { w with st := readSensorData w.st t }
  | .notify e hv p, w => { w with st := monitorCallback w.st e hv p }

/-- When the user interface lets an event fire: the scan button is
disabled while scanning, scan results arrive only during a session, a
timer can only fire while pending, each Connect button is disabled while
connected and exists only for a listed device, and the
read/disconnect panel is rendered only when connected with a selected
device. -/
def enabled : Ev → World → Bool
  | .scanStart _ _ _ _, w => !w.st.scanning
  | .scanResult _ _, w => w.scanActive
  | .scanTimeout, w => !w.timers.isEmpty
  | .connect d _ _, w =>
      !w.st.connected && w.st.devices.any (fun p => p.id == d.id)
  | .disconnect _ _, w => w.st.connected && w.st.selectedDevice.isSome
  | _, _ => true

/-- Worlds reachable from mount through enabled events. -/
inductive Reachable : World → Prop where
  | init : Reachable initialWorld
  | step {w : World} (e : Ev) : Reachable w → enabled e w = true →
      Reachable (applyEv e w)

/-- A clean event: every connection attempt either fully succeeds or
throws before the link opens, and every disconnect succeeds. -/
def cleanEv : Ev → Bool
  | .connect _ out _ => out == .success || out == .failEarly
  | .disconnect ok _ => ok
  | _ => true

/-- Worlds reachable from mount through enabled clean events. -/
inductive ReachableClean : World → Prop where
  | init : ReachableClean initialWorld
  | step {w : World} (e : Ev) : ReachableClean w → enabled e w = true →
      cleanEv e = true → ReachableClean (applyEv e w)

/-- Concrete peripherals used in the closed example runs. -/
def devA : Device := { id := "AA:11", name := some "ESP32-A" }

/-- A second concrete peripheral with a distinct identifier. -/
def devB : Device := { id := "BB:22", name := some "ESP32-B" }

/-- A run that powers the adapter on, scans, discovers both peripherals,
suffers a connect attempt to `devA` that throws after the link opened, and
then connects to `devB` — leaving two links open. -/
def runTwoLinks : List Ev :=
  [ .stateChange .PoweredOn
  , .scanStart true true false ""
  , .scanResult none (some devA)
  , .scanResult none (some devB)
  , .connect devA .failAfterLink "GATT error"
  , .connect devB .success "" ]

/-- The world after the `runTwoLinks` events. -/
def twoLinkWorld : World :=
  runTwoLinks.foldl (fun w e => applyEv e w) initialWorld

/-- A connected state whose status line is the normal monitoring message,
used to observe what a failing disconnect leaves behind. -/
def connectedState : AppState :=
  { initialState with
      connected := true
      selectedDevice := some devA
      statusMsg := "Connected and monitoring ESP32-A"
      sensorData := .obj [("temperature", .num 21)] }

/-- A payload whose only sensor field is the number zero. -/
def zeroTempPayload : Json := .obj [("temperature", .num 0)]

/-- A state with the adapter powered on, ready to scan. -/
def readyState : AppState := { initialState with bluetoothState := .PoweredOn }

/-- A well-formed discovered-device list: identifiers are pairwise
distinct and every entry carries a (non-empty) name. -/
def goodDevices (l : List Device) : Prop :=
  (l.map Device.id).Nodup ∧ ∀ d ∈ l, hasName d = true

/-! Theorems settling the specification claims. -/

/-- C1 counterexample: a payload that parses to an object whose
`temperature` field is the number 0 does not update the displayed
readings, because `data.temperature || data.humidity` is falsy at 0 — the
snapshot stays the initial empty object instead of becoming the parsed
object. -/
theorem zero_temperature_not_displayed :
    (monitorCallback initialState false true (some zeroTempPayload)).sensorData ≠
      zeroTempPayload := by
  intro h
  have h0 : (monitorCallback initialState false true (some zeroTempPayload)).sensorData =
      Json.obj [] := rfl
  rw [h0] at h
  rw [zeroTempPayload] at h
  injection h with h'
  exact List.noConfusion h'

/-- C1 amended: a notification whose payload parses as a JSON object
updates the displayed readings to that object whenever its `temperature`
or `humidity` field is a nonzero number; when both fields are falsy
(absent, zero, or otherwise untruthy) the state is unchanged, so a zero
reading never triggers an update. -/
theorem sensor_update_iff_truthy_field : ∀ (st : AppState) (j : Json),
    ((∃ t : Int, t ≠ 0 ∧ j.lookup "temperature" = some (.num t)) ∨
     (∃ u : Int, u ≠ 0 ∧ j.lookup "humidity" = some (.num u)) →
       (monitorCallback st false true (some j)).sensorData = j) ∧
    (truthyOpt (j.lookup "temperature") = false →
     truthyOpt (j.lookup "humidity") = false →
       monitorCallback st false true (some j) = st) := by
  intro st j
  constructor
  · rintro (⟨t, ht, hl⟩ | ⟨u, hu, hl⟩)
    · simp [monitorCallback, hl, truthyOpt, Json.truthy, bne_iff_ne, ht]
    · simp [monitorCallback, hl, truthyOpt, Json.truthy, bne_iff_ne, hu]
  · intro h1 h2
    simp [monitorCallback, h1, h2]

/-- C1 witness: a payload with temperature 25 updates the snapshot to the
parsed object. -/
theorem sensor_update_witness :
    (monitorCallback initialState false true
        (some (Json.obj [("temperature", Json.num 25)]))).sensorData =
      Json.obj [("temperature", Json.num 25)] :=
  (sensor_update_iff_truthy_field initialState _).1 (Or.inl ⟨25, by decide, rfl⟩)

/-- C4: whenever the update fires, the snapshot becomes exactly the newly
parsed object, whatever the prior snapshot held — no field survives from
before — and a successful disconnect clears the snapshot to the empty
object. -/
theorem sensor_snapshot_wholesale_replace : ∀ (st : AppState) (j : Json),
    ((truthyOpt (j.lookup "temperature") || truthyOpt (j.lookup "humidity")) = true →
       (monitorCallback st false true (some j)).sensorData = j) ∧
    (st.selectedDevice.isSome = true →
       (disconnectDevice st true).sensorData = Json.obj []) := by
  intro st j
  constructor
  · intro hc
    simp [monitorCallback, hc]
  · intro hs
    cases h : st.selectedDevice with
    | none => rw [h] at hs; cases hs
    | some d => simp [disconnectDevice, h]

/-- C4 witness: a prior snapshot holding only a humidity reading is
replaced by a payload holding only a temperature reading — the old
humidity field is gone — and a successful disconnect from a selected
device clears the snapshot. -/
theorem sensor_snapshot_witness :
    (monitorCallback
        { initialState with
            sensorData := Json.obj [("humidity", Json.num 55)]
            selectedDevice := some devA }
        false true (some (Json.obj [("temperature", Json.num 3)]))).sensorData =
      Json.obj [("temperature", Json.num 3)] ∧
    (disconnectDevice
        { initialState with
            sensorData := Json.obj [("humidity", Json.num 55)]
            selectedDevice := some devA }
        true).sensorData = Json.obj [] :=
  ⟨(sensor_snapshot_wholesale_replace _ _).1 (by decide),
   (sensor_snapshot_wholesale_replace _ (Json.obj [])).2 rfl⟩

/-- C5 counterexample: a failing disconnect leaves the component state —
including the status line — exactly as it was, so no status message is
surfaced for this failing operation, contrary to the claim that every
failure surfaces one. -/
theorem disconnect_failure_silent :
    disconnectDevice connectedState false = connectedState ∧
    (disconnectDevice connectedState false).statusMsg =
      "Connected and monitoring ESP32-A" := ⟨rfl, rfl⟩

/-- C5 amended: no failing operation is retried and each failure ends the
attempted action in a terminal state; scan errors and connection errors
surface a status message and clear the relevant flag, while notification
errors, unparseable payloads and disconnect errors are only logged and
leave the component state unchanged. -/
theorem failures_terminate_without_retry : ∀ (st : AppState) (m : String)
    (dv : Option Device) (d : Device) (emsg : String) (hv : Bool)
    (p : Option Json),
    ((scanCallback st (some m) dv).statusMsg = "Scan error: " ++ m ∧
     (scanCallback st (some m) dv).scanning = false) ∧
    ((connectToDevice st d .failEarly emsg).statusMsg = "Connection failed: " ++ emsg ∧
     (connectToDevice st d .failAfterLink emsg).statusMsg = "Connection failed: " ++ emsg ∧
     (connectToDevice st d .failAfterSelect emsg).statusMsg = "Connection failed: " ++ emsg ∧
     (connectToDevice st d .failEarly emsg).connected = false) ∧
    (monitorCallback st true hv p = st) ∧
    (monitorCallback st false true none = st) ∧
    (disconnectDevice st false = st) := by
  intro st m dv d emsg hv p
  refine ⟨⟨rfl, rfl⟩, ⟨rfl, rfl, rfl, rfl⟩, rfl, rfl, ?_⟩
  cases h : st.selectedDevice <;> simp [disconnectDevice, h]

/-- C9: the adapter state-change handler sets the connection flag to false
and clears the selected device exactly when the new state is PoweredOff,
leaves both untouched for every other state, never modifies the sensor
snapshot, and always records the new adapter state. -/
theorem powered_off_clears_connection : ∀ (st : AppState) (s : BLEState),
    (onStateChange st s).connected = (if s = .PoweredOff then false else st.connected) ∧
    (onStateChange st s).selectedDevice =
      (if s = .PoweredOff then none else st.selectedDevice) ∧
    (onStateChange st s).sensorData = st.sensorData ∧
    (onStateChange st s).bluetoothState = s := by
  intro st s
  cases s <;> simp [onStateChange]

/-- C10: `readSensorData` never changes the sensor snapshot, the
connection flag, the selected device, or any other field beyond the status
message; without a selected device even the message is untouched, and on
the non-throwing path the message ends as the success line although no
characteristic was read. -/
theorem read_sensor_frame : ∀ (st : AppState) (thr : Bool),
    (readSensorData st thr).sensorData = st.sensorData ∧
    (readSensorData st thr).connected = st.connected ∧
    (readSensorData st thr).selectedDevice = st.selectedDevice ∧
    (readSensorData st thr).bluetoothState = st.bluetoothState ∧
    (readSensorData st thr).scanning = st.scanning ∧
    (readSensorData st thr).devices = st.devices ∧
    (readSensorData st thr).permissionsGranted = st.permissionsGranted ∧
    (readSensorData st thr).statusMsg =
      (if st.selectedDevice = none then st.statusMsg
       else if thr then "Failed to read data" else "Data read successfully") := by
  intro st thr
  cases h : st.selectedDevice <;> cases thr <;> simp [readSensorData, h]

/-- Helper: one scan-result callback preserves well-formedness of the
device list — errors and unnamed or duplicate devices leave it unchanged,
and a new named device extends it with a fresh identifier. -/
theorem goodDevices_scanCallback {st : AppState} (hg : goodDevices st.devices)
    (e : Option String) (v : Option Device) :
    goodDevices (scanCallback st e v).devices := by
  cases e with
  | some m => simpa [scanCallback] using hg
  | none =>
    cases v with
    | none => simpa [scanCallback] using hg
    | some d =>
      by_cases hn : hasName d = true
      · by_cases hex : st.devices.any (fun p => p.id == d.id) = true
        · simpa [scanCallback, hn, hex] using hg
        · have hexf : st.devices.any (fun p => p.id == d.id) = false := by
            simpa using hex
          have hid : d.id ∉ st.devices.map Device.id := by
            intro hmem
            rcases List.mem_map.mp hmem with ⟨p, hp, hpid⟩
            have : st.devices.any (fun p => p.id == d.id) = true :=
              List.any_eq_true.mpr ⟨p, hp, by simp [hpid]⟩
            exact hex this
          have hdev : (scanCallback st none (some d)).devices = st.devices ++ [d] := by
            simp [scanCallback, hn, hexf]
          rw [hdev]
          refine ⟨?_, ?_⟩
          · rw [List.map_append]
            refine List.Nodup.append hg.1 (by simp) ?_
            simpa [List.disjoint_singleton] using hid
          · intro x hx
            rcases List.mem_append.mp hx with h | h
            · exact hg.2 x h
            · have : x = d := by simpa using h
              rw [this]; exact hn
      · simpa [scanCallback, hn] using hg

/-- Helper: folding any sequence of scan-result callbacks preserves
well-formedness of the device list. -/
theorem goodDevices_scanFold (evs : List (Option String × Option Device)) :
    ∀ st : AppState, goodDevices st.devices →
      goodDevices ((evs.foldl (fun s p => scanCallback s p.1 p.2) st).devices) := by
  induction evs with
  | nil => intro st h; exact h
  | cons e rest ih => intro st h; exact ih _ (goodDevices_scanCallback h e.1 e.2)

/-- C3: a scan that actually starts resets the discovered-device list to
empty, and from an empty list any sequence of scan-result callbacks
yields a list without duplicate identifiers and without unnamed
devices. -/
theorem scan_devices_unique_and_named : ∀ (st : AppState) (c r t : Bool)
    (m : String) (evs : List (Option String × Option Device)) (st0 : AppState),
    ((startBLEScan st c r t m).2 = true → (startBLEScan st c r t m).1.devices = []) ∧
    (st0.devices = [] →
      goodDevices ((evs.foldl (fun s p => scanCallback s p.1 p.2) st0).devices)) := by
  refine fun st c r t m evs st0 => ⟨?_, ?_⟩
  · intro h2
    by_cases hb : st.bluetoothState = BLEState.PoweredOn
    · cases c <;> cases r <;> cases t <;> simp_all [startBLEScan, hb]
    · simp [startBLEScan, hb] at h2
  · intro h0
    exact goodDevices_scanFold evs st0 (by simp [goodDevices, h0])

/-- C3 witness: with the adapter powered on and permissions granted the
scan starts and the list is reset to empty. -/
theorem scan_devices_witness :
    (startBLEScan readyState true true false "").1.devices = [] :=
  (scan_devices_unique_and_named readyState true true false "" [] initialState).1 rfl

/-- C6: on Android, the en-masse permission request returns true exactly
when every requested permission — fine and coarse location, plus the two
Bluetooth permissions on version 31 and newer — comes back granted, and
the permission check returns true exactly when every one of those
permissions checks out; any single denial makes the result false. -/
theorem permissions_all_or_nothing : ∀ (ver : Nat) (grant : String → String)
    (chk : String → Bool),
    (requestPermissions "android" ver false grant = true ↔
      ∀ p ∈ requestedPermissions ver, grant p = "granted") ∧
    (checkPermissions "android" ver false chk = true ↔
      ∀ p ∈ requestedPermissions ver, chk p = true) := by
  intro ver grant chk
  constructor
  · simp [requestPermissions, List.all_eq_true]
  · by_cases h : 31 ≤ ver <;>
      simp [checkPermissions, requestedPermissions, h, and_assoc]

/-- C6 witness: on version 33 with every permission granted the request
reports success. -/
theorem permissions_witness :
    requestPermissions "android" 33 false (fun _ => "granted") = true :=
  (permissions_all_or_nothing 33 (fun _ => "granted") (fun _ => true)).1.mpr
    (fun _ _ => rfl)

/-- C7: a scan session starts only when the adapter is PoweredOn and the
permissions were granted on check or after the request; when the adapter
is off the function returns with the state fully untouched, and when the
check and the request both deny, no scan starts and the device list and
scanning flag are untouched. -/
theorem scan_requires_power_and_permissions : ∀ (st : AppState) (c r t : Bool)
    (m : String),
    ((startBLEScan st c r t m).2 = true →
       st.bluetoothState = .PoweredOn ∧ (c = true ∨ r = true)) ∧
    (st.bluetoothState ≠ .PoweredOn → startBLEScan st c r t m = (st, false)) ∧
    (c = false → r = false →
       (startBLEScan st c r t m).2 = false ∧
       (startBLEScan st c r t m).1.devices = st.devices ∧
       (startBLEScan st c r t m).1.scanning = st.scanning) := by
  intro st c r t m
  refine ⟨?_, ?_, ?_⟩
  · intro h2
    by_cases hb : st.bluetoothState = BLEState.PoweredOn
    · refine ⟨hb, ?_⟩
      cases c <;> cases r <;> cases t <;> simp_all [startBLEScan, hb]
    · simp [startBLEScan, hb] at h2
  · intro hb
    simp [startBLEScan, hb]
  · intro hc hr
    subst hc; subst hr
    by_cases hb : st.bluetoothState = BLEState.PoweredOn <;>
      simp [startBLEScan, hb]

/-- C7 witness: with the adapter still Unknown the scan attempt is a
no-op, and with both permission outcomes denied nothing starts. -/
theorem scan_gate_witness :
    startBLEScan initialState true true false "" = (initialState, false) ∧
    (startBLEScan readyState false false false "").2 = false :=
  ⟨(scan_requires_power_and_permissions initialState true true false "").2.1
      (by simp [initialState]),
   ((scan_requires_power_and_permissions readyState false false false "").2.2
      rfl rfl).1⟩

/-- Helper: starting a scan never touches the connection flag or the
selected device. -/
theorem startBLEScan_conn_frame (st : AppState) (c r t : Bool) (m : String) :
    (startBLEScan st c r t m).1.connected = st.connected ∧
    (startBLEScan st c r t m).1.selectedDevice = st.selectedDevice := by
  by_cases hb : st.bluetoothState = BLEState.PoweredOn <;>
    cases c <;> cases r <;> cases t <;> simp [startBLEScan, hb]

/-- Helper: a scan-result callback never touches the connection flag or
the selected device. -/
theorem scanCallback_conn_frame (st : AppState) (e : Option String)
    (v : Option Device) :
    (scanCallback st e v).connected = st.connected ∧
    (scanCallback st e v).selectedDevice = st.selectedDevice := by
  cases e with
  | some m => simp [scanCallback]
  | none =>
    cases v with
    | none => simp [scanCallback]
    | some d =>
      by_cases hn : hasName d = true <;>
        by_cases hex : st.devices.any (fun p => p.id == d.id) = true <;>
        simp [scanCallback, hn, hex]

/-- Helper: a notification callback never touches the connection flag or
the selected device. -/
theorem monitorCallback_conn_frame (st : AppState) (err hv : Bool)
    (p : Option Json) :
    (monitorCallback st err hv p).connected = st.connected ∧
    (monitorCallback st err hv p).selectedDevice = st.selectedDevice := by
  cases err with
  | true => simp [monitorCallback]
  | false =>
    cases hv with
    | false => simp [monitorCallback]
    | true =>
      cases p with
      | none => simp [monitorCallback]
      | some data =>
        by_cases hc : (truthyOpt (data.lookup "temperature") ||
            truthyOpt (data.lookup "humidity")) = true <;>
          simp [monitorCallback, hc]

/-- Helper: the manual read never touches the connection flag or the
selected device. -/
theorem readSensorData_conn_frame (st : AppState) (t : Bool) :
    (readSensorData st t).connected = st.connected ∧
    (readSensorData st t).selectedDevice = st.selectedDevice := by
  cases h : st.selectedDevice <;> cases t <;> simp [readSensorData, h]

/-- Helper: one enabled clean step preserves the link bookkeeping — no
link while disconnected, and exactly the selected device's link while
connected. -/
theorem clean_step_connections {w : World} (e : Ev)
    (hinv : (w.st.connected = false → w.connections = []) ∧
            (w.st.connected = true →
              ∃ d, w.st.selectedDevice = some d ∧ w.connections = [d.id]))
    (hen : enabled e w = true) (hcl : cleanEv e = true) :
    ((applyEv e w).st.connected = false → (applyEv e w).connections = []) ∧
    ((applyEv e w).st.connected = true →
      ∃ d, (applyEv e w).st.selectedDevice = some d ∧
        (applyEv e w).connections = [d.id]) := by
  cases e with
  | stateChange s =>
    cases s <;> simp [applyEv, onStateChange] <;> exact ⟨hinv.1, hinv.2⟩
  | scanStart c r t m =>
    have hf := startBLEScan_conn_frame w.st c r t m
    simp only [applyEv]
    rw [hf.1, hf.2]
    exact hinv
  | scanResult e d =>
    have hf := scanCallback_conn_frame w.st e d
    simp only [applyEv]
    rw [hf.1, hf.2]
    exact hinv
  | scanTimeout =>
    simp only [applyEv]
    exact hinv
  | connect d out m =>
    have hcf : w.st.connected = false := by
      simp [enabled, Bool.and_eq_true] at hen
      exact hen.1
    have hempty := hinv.1 hcf
    cases out with
    | success =>
      refine ⟨?_, ?_⟩
      · intro h
        simp [applyEv, connectToDevice] at h
      · intro _
        refine ⟨d, by simp [applyEv, connectToDevice], ?_⟩
        simp [applyEv, connectToDevice, hempty]
    | failEarly =>
      refine ⟨?_, ?_⟩
      · intro _
        simp [applyEv, hempty]
      · intro h
        simp [applyEv, connectToDevice] at h
    | failAfterLink => simp [cleanEv] at hcl
    | failAfterSelect => simp [cleanEv] at hcl
  | disconnect ok dropped =>
    have hok : ok = true := by simpa [cleanEv] using hcl
    have hct : w.st.connected = true := by
      simp [enabled, Bool.and_eq_true] at hen
      exact hen.1
    rcases hinv.2 hct with ⟨d, hsel, hconn⟩
    subst hok
    refine ⟨?_, ?_⟩
    · intro _
      simp [applyEv, hsel, hconn, disconnectDevice]
    · intro h
      simp [applyEv, hsel, disconnectDevice] at h
  | readData t =>
    have hf := readSensorData_conn_frame w.st t
    simp only [applyEv]
    rw [hf.1, hf.2]
    exact hinv
  | notify err hv p =>
    have hf := monitorCallback_conn_frame w.st err hv p
    simp only [applyEv]
    rw [hf.1, hf.2]
    exact hinv

/-- C2 counterexample: a reachable run — power on, scan, discover two
peripherals, a connect to the first that throws after `device.connect()`
opened the link, then a successful connect to the second — ends with two
links held at once; every step obeys the user-interface guards, since the
failed attempt left the connection flag false without closing its link. -/
theorem two_connections_reachable :
    Reachable twoLinkWorld ∧ twoLinkWorld.connections.length = 2 := by
  have r0 : Reachable initialWorld := .init
  have r1 := Reachable.step (Ev.stateChange .PoweredOn) r0 rfl
  have r2 := Reachable.step (Ev.scanStart true true false "") r1 rfl
  have r3 := Reachable.step (Ev.scanResult none (some devA)) r2 rfl
  have r4 := Reachable.step (Ev.scanResult none (some devB)) r3 rfl
  have r5 := Reachable.step (Ev.connect devA .failAfterLink "GATT error") r4 rfl
  have r6 := Reachable.step (Ev.connect devB .success "") r5 rfl
  exact ⟨r6, rfl⟩

/-- C2 amended: `connectToDevice` never closes an existing link — every
connect step only extends the set of open links — and as long as every
connection attempt either fully succeeds or fails before the link opens
and every disconnect succeeds, at most one link is held at every
reachable state. A connect that throws after the link opened escapes the
guard (it leaves the connection flag false) and can leave a second link
open. -/
theorem single_connection_under_clean_runs :
    (∀ w, ReachableClean w → w.connections.length ≤ 1) ∧
    (∀ (w : World) (d : Device) (out : ConnOutcome) (m : String),
       ∃ more,
         (applyEv (.connect d out m) w).connections = w.connections ++ more) := by
  constructor
  · have key : ∀ w, ReachableClean w →
        ((w.st.connected = false → w.connections = []) ∧
         (w.st.connected = true →
           ∃ d, w.st.selectedDevice = some d ∧ w.connections = [d.id])) := by
      intro w hw
      induction hw with
      | init => exact ⟨fun _ => rfl, fun h => Bool.noConfusion h⟩
      | step e hr hen hcl ih => exact clean_step_connections e ih hen hcl
    intro w hw
    rcases key w hw with ⟨h0, h1⟩
    cases hc : w.st.connected with
    | false => simp [h0 hc]
    | true => rcases h1 hc with ⟨d, _, hcn⟩; simp [hcn]
  · intro w d out m
    simp only [applyEv]
    by_cases h1 : out = ConnOutcome.failEarly
    · exact ⟨[], by simp [h1]⟩
    · by_cases h2 : w.connections.contains d.id = true
      · have hm : d.id ∈ w.connections := by simpa using h2
        exact ⟨[], by simp [h1, hm]⟩
      · have hm : d.id ∉ w.connections := by simpa using h2
        exact ⟨[d.id], by simp [h1, hm]⟩

/-- C2 witness: the initial world holds at most one link, and a successful
connect step only appends to the open links. -/
theorem single_connection_witness :
    initialWorld.connections.length ≤ 1 ∧
    ∃ more,
      (applyEv (.connect devA .success "") initialWorld).connections =
        initialWorld.connections ++ more :=
  ⟨single_connection_under_clean_runs.1 initialWorld ReachableClean.init,
   single_connection_under_clean_runs.2 initialWorld devA .success ""⟩

/-- C8: every pending delayed callback in a reachable world carries the
fixed 10000 millisecond (10 second) delay; firing it stops the scan
session, clears the scanning flag and consumes exactly that one timer; no
other event ends a scan session, no other event removes a pending timer
(there is no `clearTimeout` in the source), and a scan start that
actually begins a session schedules exactly one such callback. -/
theorem scan_timeout_ten_seconds :
    (∀ w, Reachable w → ∀ x ∈ w.timers, x = 10000) ∧
    (∀ w : World, (applyEv .scanTimeout w).scanActive = false ∧
       (applyEv .scanTimeout w).st.scanning = false ∧
       (applyEv .scanTimeout w).timers = w.timers.tail) ∧
    (∀ (e : Ev) (w : World), e ≠ .scanTimeout → w.scanActive = true →
       (applyEv e w).scanActive = true) ∧
    (∀ (e : Ev) (w : World), e ≠ .scanTimeout →
       ∃ more, (applyEv e w).timers = w.timers ++ more) ∧
    (∀ (w : World) (c r t : Bool) (m : String),
       (startBLEScan w.st c r t m).2 = true →
       (applyEv (.scanStart c r t m) w).timers = w.timers ++ [10000]) := by
  refine ⟨?_, ?_, ?_, ?_, ?_⟩
  · intro w hw
    induction hw with
    | init => intro x hx; simp [initialWorld] at hx
    | @step w' e hr hen ih =>
      cases e with
      | scanStart c r t m =>
        intro x hx
        simp only [applyEv] at hx
        by_cases hs : (startBLEScan w'.st c r t m).2 = true
        · simp [hs] at hx
          rcases hx with h | h
          · exact ih x h
          · exact h
        · simp [hs] at hx
          exact ih x hx
      | scanTimeout =>
        intro x hx
        simp only [applyEv] at hx
        cases ht : w'.timers with
        | nil => rw [ht] at hx; simp at hx
        | cons a l =>
          rw [ht] at hx
          exact ih x (by rw [ht]; exact List.mem_cons_of_mem a hx)
      | disconnect ok dropped =>
        intro x hx
        cases hsel : w'.st.selectedDevice <;> simp [applyEv, hsel] at hx <;>
          exact ih x hx
      | stateChange s => exact fun x hx => ih x (by simpa [applyEv] using hx)
      | scanResult e d => exact fun x hx => ih x (by simpa [applyEv] using hx)
      | connect d out m => exact fun x hx => ih x (by simpa [applyEv] using hx)
      | readData t => exact fun x hx => ih x (by simpa [applyEv] using hx)
      | notify err hv p => exact fun x hx => ih x (by simpa [applyEv] using hx)
  · intro w
    exact ⟨rfl, rfl, rfl⟩
  · intro e w hne hsa
    cases e with
    | stateChange s => exact hsa
    | scanStart c r t m => simp [applyEv, hsa]
    | scanResult e d => exact hsa
    | scanTimeout => exact absurd rfl hne
    | connect d out m => exact hsa
    | disconnect ok dropped =>
      cases hsel : w.st.selectedDevice <;> simpa [applyEv, hsel] using hsa
    | readData t => exact hsa
    | notify err hv p => exact hsa
  · intro e w hne
    cases e with
    | stateChange s => exact ⟨[], by simp [applyEv]⟩
    | scanStart c r t m =>
      by_cases hs : (startBLEScan w.st c r t m).2 = true
      · exact ⟨[10000], by simp [applyEv, hs]⟩
      · exact ⟨[], by simp [applyEv, hs]⟩
    | scanResult e d => exact ⟨[], by simp [applyEv]⟩
    | scanTimeout => exact absurd rfl hne
    | connect d out m => exact ⟨[], by simp [applyEv]⟩
    | disconnect ok dropped =>
      cases hsel : w.st.selectedDevice <;> exact ⟨[], by simp [applyEv, hsel]⟩
    | readData t => exact ⟨[], by simp [applyEv]⟩
    | notify err hv p => exact ⟨[], by simp [applyEv]⟩
  · intro w c r t m h2
    simp [applyEv, h2]

/-- C8 witness: a state change is not the timeout, so it leaves an active
scan session running. -/
theorem scan_timeout_witness :
    (applyEv (.stateChange .PoweredOn)
        { st := initialState, connections := [], scanActive := true,
          timers := [10000] }).scanActive = true :=
  scan_timeout_ten_seconds.2.2.1 (Ev.stateChange .PoweredOn) _
    (fun h => Ev.noConfusion h) rfl

end PixeyDust
